import Mathlib

/-!
Shallow embedding of the request relay and user identity cache in
src/extension/data/api.js, together with theorems checking the
specification's claims about them.

JavaScript values are modelled by the inductive JSVal; a missing object
key or parameter is JSVal.undef. The browser message transport is
modelled as an oracle: sendRequest takes the reply envelope the
background page would produce and returns the single message it posts
together with its settled result (Except: ok = resolve, error = reject).
-/

namespace TBApi

/-- A JavaScript value, as far as this module manipulates them. -/
inductive JSVal where
  | undef
  | null
  | bool (b : Bool)
  | num (n : Int)
  | str (s : String)
  | arr (elems : List JSVal)
  | obj (fields : List (String × JSVal))
deriving Repr

/-- JavaScript truthiness for JSVal. -/
def truthy : JSVal → Bool
  | JSVal.undef => false
  | JSVal.null => false
  | JSVal.bool b => b
  | JSVal.num n => n != 0
  | JSVal.str s => s != ""
  | JSVal.arr _ => true
  | JSVal.obj _ => true

/-- JavaScript property access v.f: throws (none) on undefined and null,
yields the field (or undefined) on objects, undefined on other values. -/
def getField : JSVal → String → Option JSVal
  | JSVal.undef, _ => none
  | JSVal.null, _ => none
  | JSVal.obj fields, f => some ((List.lookup f fields).getD JSVal.undef)
  | _, _ => some JSVal.undef

/-- The options object accepted by sendRequest, after destructuring:
each field is the property value, undefined when the key is absent. -/
structure RequestDescriptor where
  method : JSVal
  endpoint : JSVal
  query : JSVal
  body : JSVal
  oauth : JSVal
  okOnly : JSVal
deriving Repr

/-- The message posted over browser.runtime.sendMessage. -/
structure SendMessage where
  action : String
  method : JSVal
  endpoint : JSVal
  query : JSVal
  body : JSVal
  oauth : JSVal
  okOnly : JSVal
deriving Repr

/-- The reply object from the background page: error (truthiness is
checked), message, and the optional array of arguments to Response(). -/
structure ReplyEnvelope where
  error : JSVal
  message : JSVal
  response : Option (List JSVal)
deriving Repr

/-- A reconstructed Response object: the body argument and the resolved
status from the init argument. -/
structure Response where
  bodyRaw : JSVal
  status : Int
deriving Repr

/-- Response.json(): the relayed body, already parsed in this model. -/
def Response.json (r : Response) : JSVal := r.bodyRaw

/-- The status taken from the second argument of Response(): the init
object's status field when it is a number, else the default 200. -/
def initStatus : JSVal → Int
  | JSVal.obj fields =>
    match List.lookup "status" fields with
    | some (JSVal.num n) => n
    | _ => 200
  | _ => 200

/-- new Response(...args): body is the first argument, status comes from
the second (the init object), both undefined when missing. -/
def mkResponse (args : List JSVal) : Response :=
  { bodyRaw := args.getD 0 JSVal.undef
    status := initStatus (args.getD 1 JSVal.undef) }

/-- How a sendRequest call can reject: a thrown Error carrying the
envelope message and possibly a reconstructed response, or the
TypeError from spreading an absent response array. -/
inductive SendFailure where
  | jsError (message : JSVal) (response : Option Response)
  | typeError
deriving Repr

/-- The message sendRequest posts: action tb-request plus the
descriptor fields copied unchanged. -/
def mkMessage (d : RequestDescriptor) : SendMessage :=
  { action := "tb-request"
    method := d.method
    endpoint := d.endpoint
    query := d.query
    body := d.body
    oauth := d.oauth
    okOnly := d.okOnly }

/-- sendRequest: posts one message built from the descriptor and settles
according to the reply envelope. Truthy error: throw an Error with the
envelope message, attaching a reconstructed response exactly when the
envelope has one. Falsy error: return new Response(...envelope.response),
which throws a TypeError when the response array is absent. -/
def sendRequest (d : RequestDescriptor) (env : ReplyEnvelope) :
    SendMessage × Except SendFailure Response :=
  (mkMessage d,
    if truthy env.error then
      Except.error (SendFailure.jsError env.message (Option.map mkResponse env.response))
    else
      match env.response with
      | some args => Except.ok (mkResponse args)
      | none => Except.error SendFailure.typeError)

/-- An options argument spread into a wrapper's descriptor: each field
present (some v) overrides the wrapper's fixed value. -/
structure Options where
  method : Option JSVal
  endpoint : Option JSVal
  query : Option JSVal
  body : Option JSVal
  oauth : Option JSVal
  okOnly : Option JSVal
deriving Repr

/-- The empty options object (the default argument). -/
def Options.empty : Options := ⟨none, none, none, none, none, none⟩

/-- Object spread ...options after the wrapper's fixed keys: options
keys take precedence. -/
def spreadOptions (base : RequestDescriptor) (o : Options) : RequestDescriptor :=
  { method := o.method.getD base.method
    endpoint := o.endpoint.getD base.endpoint
    query := o.query.getD base.query
    body := o.body.getD base.body
    oauth := o.oauth.getD base.oauth
    okOnly := o.okOnly.getD base.okOnly }

/-- Descriptor built by getJSON: okOnly true, method GET, endpoint and
query, then ...options. -/
def getJSONDescriptor (endpoint query : JSVal) (o : Options) : RequestDescriptor :=
  spreadOptions
    { method := JSVal.str "GET"
      endpoint := endpoint
      query := query
      body := JSVal.undef
      oauth := JSVal.undef
      okOnly := JSVal.bool true } o

/-- getJSON: sendRequest then response.json(). -/
def getJSON (endpoint query : JSVal) (o : Options) (env : ReplyEnvelope) :
    SendMessage × Except SendFailure JSVal :=
  let r := sendRequest (getJSONDescriptor endpoint query o) env
  (r.1, r.2.map Response.json)

/-- Descriptor built by post: okOnly true, method POST, endpoint and
body, then ...options. -/
def postDescriptor (endpoint body : JSVal) (o : Options) : RequestDescriptor :=
  spreadOptions
    { method := JSVal.str "POST"
      endpoint := endpoint
      query := JSVal.undef
      body := body
      oauth := JSVal.undef
      okOnly := JSVal.bool true } o

/-- post: sendRequest then response.json(). -/
def post (endpoint body : JSVal) (o : Options) (env : ReplyEnvelope) :
    SendMessage × Except SendFailure JSVal :=
  let r := sendRequest (postDescriptor endpoint body o) env
  (r.1, r.2.map Response.json)

/-- Descriptor built by apiOauthPOST: method POST, oauth true, endpoint
and body, okOnly true, then ...options. -/
def apiOauthPOSTDescriptor (endpoint body : JSVal) (o : Options) : RequestDescriptor :=
  spreadOptions
    { method := JSVal.str "POST"
      endpoint := endpoint
      query := JSVal.undef
      body := body
      oauth := JSVal.bool true
      okOnly := JSVal.bool true } o

/-- apiOauthPOST: sendRequest with the oauth POST descriptor, raw
response (no body decode). -/
def apiOauthPOST (endpoint body : JSVal) (o : Options) (env : ReplyEnvelope) :
    SendMessage × Except SendFailure Response :=
  sendRequest (apiOauthPOSTDescriptor endpoint body o) env

/-- Descriptor built by apiOauthGET (no options parameter). -/
def apiOauthGETDescriptor (endpoint query : JSVal) : RequestDescriptor :=
  { method := JSVal.str "GET"
    endpoint := endpoint
    query := query
    body := JSVal.undef
    oauth := JSVal.bool true
    okOnly := JSVal.bool true }

/-- apiOauthGET: sendRequest with the oauth GET descriptor, raw
response. -/
def apiOauthGET (endpoint query : JSVal) (env : ReplyEnvelope) :
    SendMessage × Except SendFailure Response :=
  sendRequest (apiOauthGETDescriptor endpoint query) env

/-- Descriptor built by apiOauthDELETE (no options parameter). -/
def apiOauthDELETEDescriptor (endpoint query : JSVal) : RequestDescriptor :=
  { method := JSVal.str "DELETE"
    endpoint := endpoint
    query := query
    body := JSVal.undef
    oauth := JSVal.bool true
    okOnly := JSVal.bool true }

/-- apiOauthDELETE: sendRequest with the oauth DELETE descriptor, raw
response. -/
def apiOauthDELETE (endpoint query : JSVal) (env : ReplyEnvelope) :
    SendMessage × Except SendFailure Response :=
  sendRequest (apiOauthDELETEDescriptor endpoint query) env

/-- The durable key-value cache behind TBStorage: a list of
(namespace, key, value) entries, most recent first. -/
abbrev Cache : Type := List (String × String × JSVal)

/-- TBStorage.setCache: record the value for the namespace/key pair. -/
def setCache (c : Cache) (ns key : String) (v : JSVal) : Cache :=
  (ns, key, v) :: c

/-- TBStorage.getCache: the most recently stored value for the
namespace/key pair, undefined when nothing was ever stored. -/
def getCache (c : Cache) (ns key : String) : JSVal :=
  match List.find? (fun e => e.1 == ns && e.2.1 == key) c with
  | some e => e.2.2
  | none => JSVal.undef

/-- The settled result of the k-th call to getJSON of /api/me.json,
driven by the stream of reply envelopes the background produces. -/
def attemptResult (envs : Nat → ReplyEnvelope) (k : Nat) : Except SendFailure JSVal :=
  (getJSON (JSVal.str "/api/me.json") (JSVal.obj []) Options.empty (envs k)).2

/-- Does the caught error satisfy
error.response && error.response.status === 504? -/
def hasResponse504 : SendFailure → Bool
  | SendFailure.jsError _ (some r) => r.status == 504
  | _ => false

/-- fetchUserDetails(tries): try getJSON of /api/me.json; on success
purify the data, write it to the Utils/userDetails cache entry and
return it; on an error whose response has status 504, with tries > 1,
recurse with tries - 1; otherwise rethrow. The purify parameter is the
external TBStorage.purifyObject sanitizer; envs drives the transport;
k counts the attempts already made so each recursive call consumes the
next envelope. The result records how many attempts were made, the
cache after the run, and the settled value. -/
def fetchUserDetails (purify : JSVal → JSVal) (envs : Nat → ReplyEnvelope)
    (cache : Cache) : Nat → Nat → Nat × Cache × Except SendFailure JSVal
  | k, tries =>
    match attemptResult envs k, tries with
    | Except.ok data, _ =>
      let d := purify data
      (1, setCache cache "Utils" "userDetails" d, Except.ok d)
    | Except.error e, t + 2 =>
      if hasResponse504 e then
        let r := fetchUserDetails purify envs cache (k + 1) (t + 1)
        (r.1 + 1, r.2)
      else
        (1, cache, Except.error e)
    | Except.error e, _ =>
      (1, cache, Except.error e)

/-- userDetailsPromise: the module-level fetchUserDetails() run with the
default budget of 3 tries, with its rejection caught and replaced by the
cached Utils/userDetails value. The promise therefore always resolves;
the first two components record the attempts made and the final cache. -/
def userDetailsPromise (purify : JSVal → JSVal) (envs : Nat → ReplyEnvelope)
    (cache : Cache) : Nat × Cache × JSVal :=
  let r := fetchUserDetails purify envs cache 0 3
  match r.2.2 with
  | Except.ok d => (r.1, r.2.1, d)
  | Except.error _ => (r.1, r.2.1, getCache r.2.1 "Utils" "userDetails")

/-- getUserDetails: returns the shared userDetailsPromise value. -/
def getUserDetails (purify : JSVal → JSVal) (envs : Nat → ReplyEnvelope)
    (cache : Cache) : JSVal :=
  (userDetailsPromise purify envs cache).2.2

/-- getModhash: awaits getUserDetails and reads .data.modhash; none
models the TypeError rejection when a dereference fails. -/
def getModhash (purify : JSVal → JSVal) (envs : Nat → ReplyEnvelope)
    (cache : Cache) : Option JSVal :=
  (getField (getUserDetails purify envs cache) "data").bind
    (fun d => getField d "modhash")

/-- getCurrentUser: awaits getUserDetails and reads .data.name. -/
def getCurrentUser (purify : JSVal → JSVal) (envs : Nat → ReplyEnvelope)
    (cache : Cache) : Option JSVal :=
  (getField (getUserDetails purify envs cache) "data").bind
    (fun d => getField d "name")

/-- The module state after load: the identity fetch has already run
(eagerly, as part of evaluating the module), leaving the number of
attempts it made, the cache, and the shared resolved value. -/
structure ModuleState where
  attempts : Nat
  cache : Cache
  userDetails : JSVal

/-- Evaluating the module runs userDetailsPromise once. -/
def moduleInit (purify : JSVal → JSVal) (envs : Nat → ReplyEnvelope)
    (cache : Cache) : ModuleState :=
  let r := userDetailsPromise purify envs cache
  { attempts := r.1, cache := r.2.1, userDetails := r.2.2 }

/-- One call to getUserDetails after load: it returns the shared value
and performs no fetch (the state is untouched). -/
def getUserDetailsCall (s : ModuleState) : ModuleState × JSVal :=
  (s, s.userDetails)

/-- n successive getUserDetails calls, collecting the returned values. -/
def runCalls (s : ModuleState) : Nat → ModuleState × List JSVal
  | 0 => (s, [])
  | n + 1 =>
    let r := getUserDetailsCall s
    let rest := runCalls r.1 n
    (rest.1, r.2 :: rest.2)

/-! Sample transport behaviors used by the closed witness theorems. -/

/-- A descriptor as produced by destructuring an options object with
only an endpoint. -/
def sampleDescriptor : RequestDescriptor :=
  { method := JSVal.undef
    endpoint := JSVal.str "/api/me.json"
    query := JSVal.undef
    body := JSVal.undef
    oauth := JSVal.undef
    okOnly := JSVal.undef }

/-- A sample body for a successful /api/me.json reply. -/
def sampleBody : JSVal :=
  JSVal.obj [("data", JSVal.obj [("modhash", JSVal.str "mh"), ("name", JSVal.str "nm")])]

/-- A successful reply envelope carrying sampleBody with status 200. -/
def envOk : ReplyEnvelope :=
  { error := JSVal.bool false
    message := JSVal.undef
    response := some [sampleBody, JSVal.obj [("status", JSVal.num 200)]] }

/-- An error reply envelope carrying a 504 response. -/
def env504 : ReplyEnvelope :=
  { error := JSVal.bool true
    message := JSVal.str "timeout"
    response := some [JSVal.undef, JSVal.obj [("status", JSVal.num 504)]] }

/-- An error reply envelope with no response (transport-level failure). -/
def envPlainErr : ReplyEnvelope :=
  { error := JSVal.bool true
    message := JSVal.str "oops"
    response := none }

/-- A malformed success envelope: falsy error but no response array. -/
def envNoResp : ReplyEnvelope :=
  { error := JSVal.undef
    message := JSVal.undef
    response := none }

/-- A transport that always succeeds. -/
def envsOk : Nat → ReplyEnvelope := fun _ => envOk

/-- A transport that always replies 504 errors. -/
def envsAll504 : Nat → ReplyEnvelope := fun _ => env504

/-- A transport that always fails without a response. -/
def envsPlain : Nat → ReplyEnvelope := fun _ => envPlainErr

/-- The failure sendRequest produces from env504. -/
def err504 : SendFailure :=
  SendFailure.jsError (JSVal.str "timeout")
    (some { bodyRaw := JSVal.undef, status := 504 })

/-- The failure sendRequest produces from envPlainErr. -/
def errPlain : SendFailure :=
  SendFailure.jsError (JSVal.str "oops") none

/-! Unfolding equations for fetchUserDetails, one per control path. -/

/-- When the attempt succeeds, any budget gives one attempt: the data is
purified, cached and returned. -/
theorem fetchUserDetails_ok_eq (purify : JSVal → JSVal) (envs : Nat → ReplyEnvelope)
    (cache : Cache) (k tries : Nat) (data : JSVal)
    (hA : attemptResult envs k = Except.ok data) :
    fetchUserDetails purify envs cache k tries =
      (1, setCache cache "Utils" "userDetails" (purify data),
        Except.ok (purify data)) := by
  cases tries with
  | zero => unfold fetchUserDetails; rw [hA]
  | succ t =>
    cases t with
    | zero => unfold fetchUserDetails; rw [hA]
    | succ t2 => unfold fetchUserDetails; rw [hA]

/-- A failed attempt with zero budget does not retry. -/
theorem fetchUserDetails_error_zero_eq (purify : JSVal → JSVal)
    (envs : Nat → ReplyEnvelope) (cache : Cache) (k : Nat) (e : SendFailure)
    (hA : attemptResult envs k = Except.error e) :
    fetchUserDetails purify envs cache k 0 = (1, cache, Except.error e) := by
  unfold fetchUserDetails; rw [hA]

/-- A failed final attempt (tries = 1) rethrows without retrying, even
on a 504. -/
theorem fetchUserDetails_error_final_eq (purify : JSVal → JSVal)
    (envs : Nat → ReplyEnvelope) (cache : Cache) (k : Nat) (e : SendFailure)
    (hA : attemptResult envs k = Except.error e) :
    fetchUserDetails purify envs cache k 1 = (1, cache, Except.error e) := by
  unfold fetchUserDetails; rw [hA]

/-- A failed attempt that is not a 504-with-response rethrows without
retrying, whatever the remaining budget. -/
theorem fetchUserDetails_error_no_retry_eq (purify : JSVal → JSVal)
    (envs : Nat → ReplyEnvelope) (cache : Cache) (k : Nat) (e : SendFailure)
    (hA : attemptResult envs k = Except.error e) (h5 : hasResponse504 e = false)
    (tries : Nat) :
    fetchUserDetails purify envs cache k tries = (1, cache, Except.error e) := by
  cases tries with
  | zero => unfold fetchUserDetails; rw [hA]
  | succ t =>
    cases t with
    | zero => unfold fetchUserDetails; rw [hA]
    | succ t2 => unfold fetchUserDetails; rw [hA]; simp [h5]

/-- A 504 failure with budget remaining retries at the next attempt
index with the budget decremented, adding one to the attempt count. -/
theorem fetchUserDetails_retry_eq (purify : JSVal → JSVal)
    (envs : Nat → ReplyEnvelope) (cache : Cache) (k t : Nat) (e : SendFailure)
    (hA : attemptResult envs k = Except.error e) (h5 : hasResponse504 e = true) :
    fetchUserDetails purify envs cache k (t + 2) =
      ((fetchUserDetails purify envs cache (k + 1) (t + 1)).1 + 1,
        (fetchUserDetails purify envs cache (k + 1) (t + 1)).2) := by
  conv_lhs => unfold fetchUserDetails
  rw [hA]; simp [h5]

/-- A run of fetchUserDetails that ends in an error never wrote to the
cache: the returned cache is the one passed in. -/
theorem fetchUserDetails_error_cache_unchanged (purify : JSVal → JSVal)
    (envs : Nat → ReplyEnvelope) :
    ∀ tries k cache n c e,
      fetchUserDetails purify envs cache k tries = (n, c, Except.error e) →
      c = cache := by
  intro tries
  induction tries with
  | zero =>
    intro k cache n c e h
    cases hA : attemptResult envs k with
    | ok data =>
      rw [fetchUserDetails_ok_eq purify envs cache k 0 data hA] at h
      simp [Prod.ext_iff] at h
    | error e0 =>
      rw [fetchUserDetails_error_zero_eq purify envs cache k e0 hA] at h
      simp [Prod.ext_iff] at h
      exact h.2.1.symm
  | succ t ih =>
    intro k cache n c e h
    cases hA : attemptResult envs k with
    | ok data =>
      rw [fetchUserDetails_ok_eq purify envs cache k (t + 1) data hA] at h
      simp [Prod.ext_iff] at h
    | error e0 =>
      cases t with
      | zero =>
        rw [fetchUserDetails_error_final_eq purify envs cache k e0 hA] at h
        simp [Prod.ext_iff] at h
        exact h.2.1.symm
      | succ t2 =>
        by_cases h5 : hasResponse504 e0 = true
        · rw [fetchUserDetails_retry_eq purify envs cache k t2 e0 hA h5] at h
          simp [Prod.ext_iff] at h
          exact ih (k + 1) cache _ c e (by rw [← h.2.1, ← h.2.2])
        · rw [fetchUserDetails_error_no_retry_eq purify envs cache k e0 hA
            (by simpa using h5) (t2 + 2)] at h
          simp [Prod.ext_iff] at h
          exact h.2.1.symm

/-- Every run of fetchUserDetails makes at least one attempt. -/
theorem fetchUserDetails_attempts_pos (purify : JSVal → JSVal)
    (envs : Nat → ReplyEnvelope) :
    ∀ tries k cache, 1 ≤ (fetchUserDetails purify envs cache k tries).1 := by
  intro tries
  induction tries with
  | zero =>
    intro k cache
    cases hA : attemptResult envs k with
    | ok data => rw [fetchUserDetails_ok_eq purify envs cache k 0 data hA]
    | error e => rw [fetchUserDetails_error_zero_eq purify envs cache k e hA]
  | succ t ih =>
    intro k cache
    cases hA : attemptResult envs k with
    | ok data => rw [fetchUserDetails_ok_eq purify envs cache k (t + 1) data hA]
    | error e =>
      cases t with
      | zero => rw [fetchUserDetails_error_final_eq purify envs cache k e hA]
      | succ t2 =>
        by_cases h5 : hasResponse504 e = true
        · rw [fetchUserDetails_retry_eq purify envs cache k t2 e hA h5]
          exact Nat.le_add_left 1 _
        · rw [fetchUserDetails_error_no_retry_eq purify envs cache k e hA
            (by simpa using h5) (t2 + 2)]

/-- With a positive budget t + 1, fetchUserDetails makes at most t + 1
attempts. -/
theorem fetchUserDetails_attempts_le (purify : JSVal → JSVal)
    (envs : Nat → ReplyEnvelope) :
    ∀ t k cache, (fetchUserDetails purify envs cache k (t + 1)).1 ≤ t + 1 := by
  intro t
  induction t with
  | zero =>
    intro k cache
    cases hA : attemptResult envs k with
    | ok data => rw [fetchUserDetails_ok_eq purify envs cache k 1 data hA]
    | error e => rw [fetchUserDetails_error_final_eq purify envs cache k e hA]
  | succ t2 ih =>
    intro k cache
    cases hA : attemptResult envs k with
    | ok data =>
      rw [fetchUserDetails_ok_eq purify envs cache k (t2 + 2) data hA]
      omega
    | error e =>
      by_cases h5 : hasResponse504 e = true
      · rw [fetchUserDetails_retry_eq purify envs cache k t2 e hA h5]
        have := ih (k + 1) cache
        omega
      · rw [fetchUserDetails_error_no_retry_eq purify envs cache k e hA
          (by simpa using h5) (t2 + 2)]
        omega

/-- Calls to the loaded module's getUserDetails never change its state
and always return the one shared value. -/
theorem runCalls_replicate (s : ModuleState) :
    ∀ n, runCalls s n = (s, List.replicate n s.userDetails) := by
  intro n
  induction n with
  | zero => rfl
  | succ m ih => simp [runCalls, getUserDetailsCall, ih, List.replicate]

/-! Claim theorems. -/

/-- C1: for every reply envelope with a truthy error field, sendRequest
rejects with an Error whose message equals the envelope's message, and
the error carries a reconstructed response attribute exactly when the
envelope contains a response array, and none otherwise. -/
theorem sendRequest_error_rejects (d : RequestDescriptor) (env : ReplyEnvelope)
    (h : truthy env.error = true) :
    (sendRequest d env).2 =
      Except.error (SendFailure.jsError env.message (Option.map mkResponse env.response)) ∧
    (env.response = none →
      (sendRequest d env).2 = Except.error (SendFailure.jsError env.message none)) ∧
    (∀ args, env.response = some args →
      (sendRequest d env).2 =
        Except.error (SendFailure.jsError env.message (some (mkResponse args)))) := by
  refine ⟨by simp [sendRequest, h], ?_, ?_⟩
  · intro hr; simp [sendRequest, h, hr]
  · intro args hr; simp [sendRequest, h, hr]

/-- C1 witness: a truthy-error envelope without a response rejects with
the envelope's message and no attached response. -/
theorem sendRequest_error_rejects_witness :
    (sendRequest sampleDescriptor envPlainErr).2 =
      Except.error (SendFailure.jsError (JSVal.str "oops") none) :=
  (sendRequest_error_rejects sampleDescriptor envPlainErr rfl).2.1 rfl

/-- C2: for every reply envelope with a falsy error field and a present
response array, sendRequest resolves to the Response constructed from
exactly the elements of that array: body from the first element, status
from the second. -/
theorem sendRequest_success_resolves (d : RequestDescriptor) (env : ReplyEnvelope)
    (args : List JSVal) (h1 : truthy env.error = false)
    (h2 : env.response = some args) :
    (sendRequest d env).2 =
      Except.ok
        { bodyRaw := args.getD 0 JSVal.undef
          status := initStatus (args.getD 1 JSVal.undef) } := by
  simp [sendRequest, h1, h2, mkResponse]

/-- C2 witness: a falsy-error envelope with a body and a status-200 init
resolves to the matching Response. -/
theorem sendRequest_success_resolves_witness :
    (sendRequest sampleDescriptor envOk).2 =
      Except.ok { bodyRaw := sampleBody, status := 200 } :=
  sendRequest_success_resolves sampleDescriptor envOk
    [sampleBody, JSVal.obj [("status", JSVal.num 200)]] rfl rfl

/-- C10: a reply envelope with a falsy error field but no response array
does not resolve: spreading the absent array into Response() rejects the
call with a TypeError. -/
theorem sendRequest_missing_response_type_error (d : RequestDescriptor)
    (env : ReplyEnvelope) (h1 : truthy env.error = false)
    (h2 : env.response = none) :
    (sendRequest d env).2 = Except.error SendFailure.typeError := by
  simp [sendRequest, h1, h2]

/-- C10 witness: the envelope with undefined error and no response
rejects with the TypeError. -/
theorem sendRequest_missing_response_type_error_witness :
    (sendRequest sampleDescriptor envNoResp).2 = Except.error SendFailure.typeError :=
  sendRequest_missing_response_type_error sampleDescriptor envNoResp rfl rfl

/-- C8: one sendRequest call posts exactly one message, of the exact
shape action tb-request with the descriptor fields copied unchanged, and
settles exactly once: its result is ok or error but never both. -/
theorem sendRequest_single_message_shape (d : RequestDescriptor) (env : ReplyEnvelope) :
    (sendRequest d env).1 =
      { action := "tb-request"
        method := d.method
        endpoint := d.endpoint
        query := d.query
        body := d.body
        oauth := d.oauth
        okOnly := d.okOnly } ∧
    ((∃ r, (sendRequest d env).2 = Except.ok r) ↔
      ¬ ∃ e, (sendRequest d env).2 = Except.error e) := by
  refine ⟨rfl, ?_⟩
  cases hr : (sendRequest d env).2 <;> simp

/-- C3: the identity fetch retries exactly when the caught error carries
a response with status 504 and attempts remain: a non-504-with-response
failure propagates at once with one attempt; a 504 with budget left
consumes one attempt and continues; a 504 on the final attempt
propagates; three consecutive 504 failures give exactly three attempts
and then propagate the last failure. -/
theorem fetchUserDetails_retries_iff_504_within_budget (purify : JSVal → JSVal)
    (envs : Nat → ReplyEnvelope) (cache : Cache) :
    (∀ e tries, attemptResult envs 0 = Except.error e → hasResponse504 e = false →
      fetchUserDetails purify envs cache 0 tries = (1, cache, Except.error e)) ∧
    (∀ k t e, attemptResult envs k = Except.error e → hasResponse504 e = true →
      fetchUserDetails purify envs cache k (t + 2) =
        ((fetchUserDetails purify envs cache (k + 1) (t + 1)).1 + 1,
          (fetchUserDetails purify envs cache (k + 1) (t + 1)).2)) ∧
    (∀ k e, attemptResult envs k = Except.error e →
      fetchUserDetails purify envs cache k 1 = (1, cache, Except.error e)) ∧
    (∀ e0 e1 e2,
      attemptResult envs 0 = Except.error e0 → hasResponse504 e0 = true →
      attemptResult envs 1 = Except.error e1 → hasResponse504 e1 = true →
      attemptResult envs 2 = Except.error e2 →
      fetchUserDetails purify envs cache 0 3 = (3, cache, Except.error e2)) := by
  refine ⟨?_, ?_, ?_, ?_⟩
  · intro e tries hA h5
    exact fetchUserDetails_error_no_retry_eq purify envs cache 0 e hA h5 tries
  · intro k t e hA h5
    exact fetchUserDetails_retry_eq purify envs cache k t e hA h5
  · intro k e hA
    exact fetchUserDetails_error_final_eq purify envs cache k e hA
  · intro e0 e1 e2 h0 h50 h1 h51 h2
    have hA := fetchUserDetails_retry_eq purify envs cache 0 1 e0 h0 h50
    have hB := fetchUserDetails_retry_eq purify envs cache 1 0 e1 h1 h51
    have hC := fetchUserDetails_error_final_eq purify envs cache 2 e2 h2
    norm_num at hA hB
    rw [hA, hB, hC]

/-- C3 witness: with a transport replying 504 on every attempt, the
fetch makes exactly three attempts and propagates the 504 error with the
cache untouched. -/
theorem fetchUserDetails_retries_iff_504_within_budget_witness :
    fetchUserDetails (fun v => v) envsAll504 [] 0 3 = (3, [], Except.error err504) :=
  (fetchUserDetails_retries_iff_504_within_budget (fun v => v) envsAll504 []).2.2.2
    err504 err504 err504 rfl rfl rfl rfl rfl

/-- C4: when the whole retry sequence fails, the identity promise still
resolves, with the value read from the durable cache under Utils and
userDetails; getUserDetails hands exactly that value to its callers, and
on a never-written cache the value is undefined. -/
theorem userDetailsPromise_falls_back_to_cache (purify : JSVal → JSVal)
    (envs : Nat → ReplyEnvelope) (cache : Cache) (e : SendFailure)
    (h : (fetchUserDetails purify envs cache 0 3).2.2 = Except.error e) :
    userDetailsPromise purify envs cache =
      ((fetchUserDetails purify envs cache 0 3).1, cache,
        getCache cache "Utils" "userDetails") ∧
    getUserDetails purify envs cache = getCache cache "Utils" "userDetails" ∧
    getCache ([] : Cache) "Utils" "userDetails" = JSVal.undef := by
  have hc : (fetchUserDetails purify envs cache 0 3).2.1 = cache :=
    fetchUserDetails_error_cache_unchanged purify envs 3 0 cache
      (fetchUserDetails purify envs cache 0 3).1
      (fetchUserDetails purify envs cache 0 3).2.1 e (by rw [← h])
  have hmain : userDetailsPromise purify envs cache =
      ((fetchUserDetails purify envs cache 0 3).1, cache,
        getCache cache "Utils" "userDetails") := by
    unfold userDetailsPromise
    dsimp only
    rw [h]
    simp [hc]
  exact ⟨hmain, by unfold getUserDetails; rw [hmain], rfl⟩

/-- C4 witness: a transport failing without responses never retries; the
promise resolves with the undefined value read from the empty cache. -/
theorem userDetailsPromise_falls_back_to_cache_witness :
    userDetailsPromise (fun v => v) envsPlain [] = (1, [], JSVal.undef) :=
  (userDetailsPromise_falls_back_to_cache (fun v => v) envsPlain [] errPlain rfl).1

/-- C5: when the first attempt at /api/me.json succeeds, exactly one
attempt is made, the data is purified, the purified value is written to
the durable cache under Utils and userDetails (where it is then
readable), and the promise resolves with the purified value. -/
theorem fetchUserDetails_first_attempt_success (purify : JSVal → JSVal)
    (envs : Nat → ReplyEnvelope) (cache : Cache) (data : JSVal)
    (h : attemptResult envs 0 = Except.ok data) :
    fetchUserDetails purify envs cache 0 3 =
      (1, setCache cache "Utils" "userDetails" (purify data),
        Except.ok (purify data)) ∧
    userDetailsPromise purify envs cache =
      (1, setCache cache "Utils" "userDetails" (purify data), purify data) ∧
    getCache (setCache cache "Utils" "userDetails" (purify data))
      "Utils" "userDetails" = purify data := by
  have hF := fetchUserDetails_ok_eq purify envs cache 0 3 data h
  refine ⟨hF, ?_, ?_⟩
  · unfold userDetailsPromise
    rw [hF]
  · simp [getCache, setCache, List.find?]

/-- C5 witness: a first-attempt success stores and returns the sample
body after one attempt. -/
theorem fetchUserDetails_first_attempt_success_witness :
    userDetailsPromise (fun v => v) envsOk [] =
      (1, [("Utils", "userDetails", sampleBody)], sampleBody) :=
  (fetchUserDetails_first_attempt_success (fun v => v) envsOk [] sampleBody rfl).2.1

/-- An options argument whose okOnly key is false. -/
def okOnlyFalseOptions : Options :=
  ⟨none, none, none, none, none, some (JSVal.bool false)⟩

/-- C6 counterexample: getJSON does not fix okOnly to true for every
options argument: because the options object is spread after the fixed
keys, an options argument carrying okOnly false overrides it, so the
descriptor built for this concrete call has okOnly false. -/
theorem getJSON_okOnly_not_fixed_cex :
    (getJSONDescriptor (JSVal.str "/api/me.json") (JSVal.obj [])
        okOnlyFalseOptions).okOnly = JSVal.bool false ∧
    (getJSONDescriptor (JSVal.str "/api/me.json") (JSVal.obj [])
        okOnlyFalseOptions).okOnly ≠ JSVal.bool true := by
  constructor
  · rfl
  · simp [getJSONDescriptor, spreadOptions, okOnlyFalseOptions]

/-- C6 amended: the wrappers merge their fixed keys with the caller's
options spread last, so options keys take precedence; whenever the
options argument overrides nothing (it is empty or omitted), every
wrapper builds its descriptor exactly per the contract table: getJSON is
GET with okOnly true and no oauth, post is POST with okOnly true and no
oauth, both decoding the body as JSON; apiOauthPOST, apiOauthGET and
apiOauthDELETE fix oauth true and okOnly true with their methods and
return the raw response (apiOauthGET and apiOauthDELETE accept no
options at all, so their descriptors are always fixed). -/
theorem wrappers_contract_table (endpoint query body : JSVal) :
    getJSONDescriptor endpoint query Options.empty =
      { method := JSVal.str "GET", endpoint := endpoint, query := query
        body := JSVal.undef, oauth := JSVal.undef, okOnly := JSVal.bool true } ∧
    postDescriptor endpoint body Options.empty =
      { method := JSVal.str "POST", endpoint := endpoint, query := JSVal.undef
        body := body, oauth := JSVal.undef, okOnly := JSVal.bool true } ∧
    apiOauthPOSTDescriptor endpoint body Options.empty =
      { method := JSVal.str "POST", endpoint := endpoint, query := JSVal.undef
        body := body, oauth := JSVal.bool true, okOnly := JSVal.bool true } ∧
    apiOauthGETDescriptor endpoint query =
      { method := JSVal.str "GET", endpoint := endpoint, query := query
        body := JSVal.undef, oauth := JSVal.bool true, okOnly := JSVal.bool true } ∧
    apiOauthDELETEDescriptor endpoint query =
      { method := JSVal.str "DELETE", endpoint := endpoint, query := query
        body := JSVal.undef, oauth := JSVal.bool true, okOnly := JSVal.bool true } ∧
    (∀ env args, truthy env.error = false → env.response = some args →
      (getJSON endpoint query Options.empty env).2 =
        Except.ok (mkResponse args).json ∧
      (post endpoint body Options.empty env).2 =
        Except.ok (mkResponse args).json ∧
      (apiOauthPOST endpoint body Options.empty env).2 =
        Except.ok (mkResponse args) ∧
      (apiOauthGET endpoint query env).2 = Except.ok (mkResponse args) ∧
      (apiOauthDELETE endpoint query env).2 = Except.ok (mkResponse args)) := by
  refine ⟨rfl, rfl, rfl, rfl, rfl, ?_⟩
  intro env args h1 h2
  refine ⟨?_, ?_, ?_, ?_, ?_⟩ <;>
    simp [getJSON, post, apiOauthPOST, apiOauthGET, apiOauthDELETE,
      sendRequest, h1, h2, Except.map]

/-- C6 amended witness: the table holds at concrete arguments, and a
successful envelope makes getJSON resolve to the decoded sample body. -/
theorem wrappers_contract_table_witness :
    getJSONDescriptor (JSVal.str "/api/me.json") (JSVal.obj []) Options.empty =
      { method := JSVal.str "GET", endpoint := JSVal.str "/api/me.json"
        query := JSVal.obj [], body := JSVal.undef, oauth := JSVal.undef
        okOnly := JSVal.bool true } ∧
    (getJSON (JSVal.str "/api/me.json") (JSVal.obj []) Options.empty envOk).2 =
      Except.ok sampleBody := by
  have h := wrappers_contract_table (JSVal.str "/api/me.json") (JSVal.obj [])
    JSVal.undef
  exact ⟨h.1,
    (h.2.2.2.2.2 envOk [sampleBody, JSVal.obj [("status", JSVal.num 200)]]
      rfl rfl).1⟩

/-- C7: getModhash and getCurrentUser read the data.modhash and
data.name fields of whatever value the identity promise resolved to,
and when that value is undefined both fail with a dereference error
(none) instead of returning a value. -/
theorem getModhash_getCurrentUser_read_fields (purify : JSVal → JSVal)
    (envs : Nat → ReplyEnvelope) (cache : Cache) :
    (getUserDetails purify envs cache = JSVal.undef →
      getModhash purify envs cache = none ∧
      getCurrentUser purify envs cache = none) ∧
    (∀ fields dataFields mh nm,
      getUserDetails purify envs cache = JSVal.obj fields →
      List.lookup "data" fields = some (JSVal.obj dataFields) →
      List.lookup "modhash" dataFields = some mh →
      List.lookup "name" dataFields = some nm →
      getModhash purify envs cache = some mh ∧
      getCurrentUser purify envs cache = some nm) := by
  constructor
  · intro h
    unfold getModhash getCurrentUser
    rw [h]
    exact ⟨rfl, rfl⟩
  · intro fields dataFields mh nm h hd hm hn
    unfold getModhash getCurrentUser
    rw [h]
    simp [getField, hd, hm, hn]

/-- C7 witness: with a successful fetch of the sample body, getModhash
and getCurrentUser return its modhash and name; the hypotheses are
discharged by computation. -/
theorem getModhash_getCurrentUser_read_fields_witness :
    getModhash (fun v => v) envsOk [] = some (JSVal.str "mh") ∧
    getCurrentUser (fun v => v) envsOk [] = some (JSVal.str "nm") :=
  (getModhash_getCurrentUser_read_fields (fun v => v) envsOk []).2
    [("data", JSVal.obj [("modhash", JSVal.str "mh"), ("name", JSVal.str "nm")])]
    [("modhash", JSVal.str "mh"), ("name", JSVal.str "nm")]
    (JSVal.str "mh") (JSVal.str "nm") rfl rfl rfl rfl

/-- C9: the identity fetch runs once, eagerly, when the module is
evaluated: it makes between one and three attempts, and afterwards any
number of getUserDetails calls leaves the module state unchanged and
returns the same shared value to every caller; getModhash and
getCurrentUser read fields of that same shared value, so no caller ever
starts a second fetch sequence. -/
theorem identity_fetch_memoized (purify : JSVal → JSVal)
    (envs : Nat → ReplyEnvelope) (cache : Cache) (n : Nat) :
    runCalls (moduleInit purify envs cache) n =
      (moduleInit purify envs cache,
        List.replicate n (moduleInit purify envs cache).userDetails) ∧
    (moduleInit purify envs cache).attempts =
      (fetchUserDetails purify envs cache 0 3).1 ∧
    1 ≤ (moduleInit purify envs cache).attempts ∧
    (moduleInit purify envs cache).attempts ≤ 3 ∧
    getUserDetails purify envs cache = (moduleInit purify envs cache).userDetails ∧
    getModhash purify envs cache =
      (getField (moduleInit purify envs cache).userDetails "data").bind
        (fun d => getField d "modhash") ∧
    getCurrentUser purify envs cache =
      (getField (moduleInit purify envs cache).userDetails "data").bind
        (fun d => getField d "name") := by
  have hle := fetchUserDetails_attempts_le purify envs 2 0 cache
  have hpos := fetchUserDetails_attempts_pos purify envs 3 0 cache
  have hatt : (moduleInit purify envs cache).attempts =
      (fetchUserDetails purify envs cache 0 3).1 := by
    unfold moduleInit userDetailsPromise
    dsimp only
    cases (fetchUserDetails purify envs cache 0 3).2.2 <;> rfl
  refine ⟨runCalls_replicate _ n, hatt, ?_, ?_, rfl, rfl, rfl⟩
  · rw [hatt]; exact hpos
  · rw [hatt]; exact by norm_num at hle; exact hle

end TBApi
